import Mathlib

/-!
Shallow embedding of the bitespeed-client API layer (`src/services/api.ts`)
and the form-submission guard of `src/pages/IdentifyPage.tsx`.

The HTTP transport (`fetch`) is modelled as a function from a request
description to an outcome: either a response (status plus the result of
parsing its body as JSON) or a thrown error.  Async functions that may
reject are modelled as `Except JsError`-valued functions; a try/catch
block becomes a match on the `Except` value of the try body.
-/

namespace Bitespeed

/-- Parsed JSON values, the result of `response.json()`.  Arbitrary shapes
are representable, since the client performs no structural validation. -/
inductive Json where
  | null : Json
  | bool (b : Bool) : Json
  | num (n : Int) : Json
  | str (s : String) : Json
  | arr (elems : List Json) : Json
  | obj (fields : List (String × Json)) : Json

/-- A thrown JavaScript error value, identified by its message
(`new Error(message)`); transport-level failures carry their own message. -/
inductive JsError where
  | error (message : String) : JsError

/-- The request description handed to `fetch`: URL, method, headers and
optional body string. -/
structure Request where
  url : String
  method : String
  headers : List (String × String)
  body : Option String

/-- An HTTP response as the client observes it: the numeric status and the
outcome of parsing the body as JSON (`response.json()` may reject). -/
structure Response where
  status : Nat
  jsonResult : Except JsError Json

/-- The `ok` getter of the Fetch API: status in the inclusive range 200-299. -/
def Response.ok (r : Response) : Bool :=
  decide (200 ≤ r.status) && decide (r.status ≤ 299)

/-- Outcome of a `fetch` call: a response, or a thrown transport error
(network unreachable, DNS failure, timeout). -/
inductive FetchResult where
  | success (resp : Response) : FetchResult
  | failure (err : JsError) : FetchResult

/-- A transport: what `fetch` returns for each request.  Quantifying over
transports corresponds to mocking `fetch` in a test. -/
def Transport : Type := Request → FetchResult

/-- The fixed base URL constant `BASE_URL` of `api.ts`. -/
def BASE_URL : String := "https://aryan-bitespeed.onrender.com/api"

/-- Hexadecimal digit character (lowercase), for JSON string escapes. -/
def hexDigit (n : Nat) : Char :=
  if n < 10 then Char.ofNat (48 + n) else Char.ofNat (87 + n)

/-- Escape of a single character inside a JSON string literal, following
the behaviour of `JSON.stringify`. -/
def jsEscapeChar (c : Char) : String :=
  if c = '"' then "\\\""
  else if c = '\\' then "\\\\"
  else if c = '\n' then "\\n"
  else if c = '\r' then "\\r"
  else if c = '\t' then "\\t"
  else if c.toNat = 8 then "\\b"
  else if c.toNat = 12 then "\\f"
  else if c.toNat < 32 then
    "\\u00" ++ String.singleton (hexDigit (c.toNat / 16)) ++
      String.singleton (hexDigit (c.toNat % 16))
  else String.singleton c

/-- A JSON string literal for `s`, with the escaping of `JSON.stringify`. -/
def jsQuote (s : String) : String :=
  "\"" ++ String.join (s.data.map jsEscapeChar) ++ "\""

/-- The `IdentifyRequest` interface of `api.ts`: two optional string
fields.  `none` models an absent or `undefined` field. -/
structure IdentifyRequest where
  email : Option String
  phoneNumber : Option String

/-- The key/value pairs `JSON.stringify` sees on an `IdentifyRequest`:
`undefined` fields are omitted, present fields keep source order. -/
def identifyFields (d : IdentifyRequest) : List (String × String) :=
  (match d.email with
    | some e => [("email", e)]
    | none => []) ++
  (match d.phoneNumber with
    | some p => [("phoneNumber", p)]
    | none => [])

/-- `JSON.stringify(data)` for an `IdentifyRequest` value: an object
literal containing exactly the present fields. -/
def jsonStringifyIdentify (d : IdentifyRequest) : String :=
  "\x7b" ++
    String.intercalate ","
      ((identifyFields d).map fun p => jsQuote p.1 ++ ":" ++ jsQuote p.2) ++
  "\x7d"

/-- The request `checkHealth` hands to `fetch`: GET on `BASE_URL/health`
with a `Content-Type: application/json` header and no body. -/
def healthRequest : Request :=
  { url := BASE_URL ++ "/health"
    method := "GET"
    headers := [("Content-Type", "application/json")]
    body := none }

/-- The request `identifyContact` hands to `fetch`: POST on
`BASE_URL/identify`, JSON content type, body `JSON.stringify(data)`. -/
def identifyFetchRequest (d : IdentifyRequest) : Request :=
  { url := BASE_URL ++ "/identify"
    method := "POST"
    headers := [("Content-Type", "application/json")]
    body := some (jsonStringifyIdentify d) }

/-- `checkHealth` from `api.ts`: fetch `BASE_URL/health`; inside the try
block return `status === 200 || status === 201`; the catch block logs and
returns `false`.  The `Except` codomain records that the async function
could in principle reject; this one never does. -/
def checkHealth (t : Transport) : Except JsError Bool :=
  match t healthRequest with
  | FetchResult.success resp =>
      Except.ok (resp.status == 200 || resp.status == 201)
  | FetchResult.failure _ => Except.ok false

/-- The error thrown by `identifyContact` on a non-ok response:
`new Error("HTTP error! status: " + status)`. -/
def statusError (status : Nat) : JsError :=
  JsError.error ("HTTP error! status: " ++ toString status)

/-- Handling of a fetch outcome by the body of `identifyContact`: throw on
a non-ok status, otherwise parse the body and return it. -/
def handleIdentifyResponse (r : FetchResult) : Except JsError Json :=
  match r with
  | FetchResult.failure err => Except.error err
  | FetchResult.success resp =>
      if resp.ok then resp.jsonResult
      else Except.error (statusError resp.status)

/-- The try block of `identifyContact`: fetch `BASE_URL/identify` with the
serialized payload, throw on non-ok status, then `response.json()`. -/
def identifyTry (t : Transport) (d : IdentifyRequest) : Except JsError Json :=
  handleIdentifyResponse (t (identifyFetchRequest d))

/-- `identifyContact` from `api.ts`: the try block wrapped in a catch that
logs the error and rethrows the very same error value. -/
def identifyContact (t : Transport) (d : IdentifyRequest) :
    Except JsError Json :=
  match identifyTry t d with
  | Except.ok v => Except.ok v
  | Except.error e => Except.error e

/-- An `IdentifyRequest` with both fields absent. -/
def emptyRequest : IdentifyRequest :=
  { email := none, phoneNumber := none }

/-- A transport that answers every request with the given status and
parsed body — a mocked `fetch`. -/
def constTransport (status : Nat) (j : Json) : Transport :=
  fun _ => FetchResult.success { status := status, jsonResult := Except.ok j }

/-- A stateful transport: `fetch` may also evolve a hidden state of type
`σ` (the mocked backend) on each call. -/
def StTransport (σ : Type) : Type := σ → Request → FetchResult × σ

/-- `checkHealth` run against a stateful transport: the client itself
threads no state, only the transport's state moves. -/
def checkHealthSt {σ : Type} (t : StTransport σ) (s : σ) :
    Except JsError Bool × σ :=
  match t s healthRequest with
  | (FetchResult.success resp, s1) =>
      (Except.ok (resp.status == 200 || resp.status == 201), s1)
  | (FetchResult.failure _, s1) => (Except.ok false, s1)

/-- The form values of `IdentifyPage.tsx`: two optional string fields;
`none` models `undefined`, `some ""` an empty input. -/
structure FormData where
  email : Option String
  phoneNumber : Option String

/-- JavaScript truthiness of an optional string: `undefined` and `""` are
falsy, every other string is truthy. -/
def truthyStr : Option String → Bool
  | none => false
  | some s => !(s == "")

/-- The `.refine` predicate of `formSchema`:
`data.email || data.phoneNumber` under JS truthiness. -/
def formSchemaRefine (d : FormData) : Bool :=
  truthyStr d.email || truthyStr d.phoneNumber

/-- The guard at the top of `onSubmit`: when both fields are falsy it
toasts and returns early; otherwise `identifyContact(data)` is invoked
with the form data as payload.  The result is the payload of the API
call, or `none` when no call is made. -/
def onSubmitApiCall (d : FormData) : Option IdentifyRequest :=
  if !truthyStr d.email && !truthyStr d.phoneNumber then none
  else some { email := d.email, phoneNumber := d.phoneNumber }

/-- The full submission pipeline: `zodResolver(formSchema)` blocks
`onSubmit` unless the schema (refinement included) accepts the data. -/
def submitFlow (d : FormData) : Option IdentifyRequest :=
  if formSchemaRefine d then onSubmitApiCall d else none

/-- The response body of the spec's worked example:
`{"contact":{"primaryContactId":1,"emails":["a@x.com"],"phoneNumbers":["123"],"secondaryContactIds":[]}}`. -/
def exampleBody : Json :=
  Json.obj [("contact", Json.obj
    [("primaryContactId", Json.num 1),
     ("emails", Json.arr [Json.str "a@x.com"]),
     ("phoneNumbers", Json.arr [Json.str "123"]),
     ("secondaryContactIds", Json.arr [])])]

/-- A transport whose `fetch` throws a network-level error on every
request. -/
def netFailTransport : Transport :=
  fun _ => FetchResult.failure (JsError.error "network down")

/-- A stateful transport that never changes its state and always answers
status 200. -/
def idleTransport : StTransport Unit :=
  fun s _ =>
    (FetchResult.success { status := 200, jsonResult := Except.ok Json.null }, s)

/-- The catch block of `identifyContact` is the identity on outcomes: the
function's result is the try block's result. -/
theorem identifyContact_eq_try (t : Transport) (d : IdentifyRequest) :
    identifyContact t d = identifyTry t d := by
  unfold identifyContact
  cases h : identifyTry t d <;> rfl

/-- Claim C1: `checkHealth()` resolves to `true` exactly when the response
to `GET BASE_URL/health` has status 200 or 201; any other status, and any
thrown transport error, resolves to `false`. -/
theorem checkHealth_status_spec (t : Transport) :
    (∀ resp, t healthRequest = FetchResult.success resp →
      (checkHealth t = Except.ok true ↔
        (resp.status = 200 ∨ resp.status = 201))) ∧
    (∀ resp, t healthRequest = FetchResult.success resp →
      resp.status ≠ 200 → resp.status ≠ 201 →
      checkHealth t = Except.ok false) ∧
    (∀ e, t healthRequest = FetchResult.failure e →
      checkHealth t = Except.ok false) := by
  refine ⟨?_, ?_, ?_⟩
  · intro resp h
    simp [checkHealth, h]
  · intro resp h h200 h201
    simp [checkHealth, h, h200, h201]
  · intro e h
    simp [checkHealth, h]

/-- Witness for C1: a mocked transport answering status 200 yields
`Except.ok true`. -/
theorem checkHealth_status_spec_witness :
    checkHealth (constTransport 200 Json.null) = Except.ok true :=
  ((checkHealth_status_spec (constTransport 200 Json.null)).1
    { status := 200, jsonResult := Except.ok Json.null } rfl).mpr (Or.inl rfl)

/-- Claim C2: for every transport outcome, `checkHealth()` never
propagates an error: it always resolves to some boolean. -/
theorem checkHealth_never_throws (t : Transport) :
    ∃ b : Bool, checkHealth t = Except.ok b := by
  cases h : t healthRequest with
  | success resp =>
      exact ⟨resp.status == 200 || resp.status == 201, by simp [checkHealth, h]⟩
  | failure e => exact ⟨false, by simp [checkHealth, h]⟩

/-- Claim C4: on a response with a success status (`response.ok`, i.e.
200-299), `identifyContact` resolves to the parsed JSON body as-is,
whatever its shape. -/
theorem identifyContact_success_passthrough (t : Transport)
    (d : IdentifyRequest) (resp : Response) (j : Json)
    (hfetch : t (identifyFetchRequest d) = FetchResult.success resp)
    (hok : resp.ok = true) (hjson : resp.jsonResult = Except.ok j) :
    identifyContact t d = Except.ok j := by
  rw [identifyContact_eq_try]
  simp [identifyTry, handleIdentifyResponse, hfetch, hok, hjson]

/-- Witness for C4: the spec's example body at status 200 is returned
exactly as parsed. -/
theorem identifyContact_success_passthrough_witness :
    identifyContact (constTransport 200 exampleBody)
      { email := some "a@x.com", phoneNumber := none } =
      Except.ok exampleBody :=
  identifyContact_success_passthrough (constTransport 200 exampleBody)
    { email := some "a@x.com", phoneNumber := none }
    { status := 200, jsonResult := Except.ok exampleBody } exampleBody
    rfl rfl rfl

/-- Claim C9: when the try block of `identifyContact` ends in an error,
the caller receives that identical error value: the catch block rethrows
it unchanged. -/
theorem identifyContact_rethrows_same_error (t : Transport)
    (d : IdentifyRequest) (e : JsError)
    (h : identifyTry t d = Except.error e) :
    identifyContact t d = Except.error e := by
  unfold identifyContact
  rw [h]

/-- Witness for C9: a transport-level failure surfaces as the very same
error value. -/
theorem identifyContact_rethrows_same_error_witness :
    identifyContact netFailTransport emptyRequest =
      Except.error (JsError.error "network down") :=
  identifyContact_rethrows_same_error netFailTransport emptyRequest
    (JsError.error "network down") rfl

/-- Claim C3: `identifyContact` fails exactly when the outcome is not a
success: a non-2xx status yields the error carrying that status, an ok
status with an unparseable body yields the parse error, a thrown transport
error yields that error; and an error outcome occurs precisely when no
ok-status response with a parseable body was received. -/
theorem identifyContact_failure_spec (t : Transport) (d : IdentifyRequest) :
    (∀ resp, t (identifyFetchRequest d) = FetchResult.success resp →
      resp.ok = false →
      identifyContact t d = Except.error (statusError resp.status)) ∧
    (∀ resp e, t (identifyFetchRequest d) = FetchResult.success resp →
      resp.ok = true → resp.jsonResult = Except.error e →
      identifyContact t d = Except.error e) ∧
    (∀ e, t (identifyFetchRequest d) = FetchResult.failure e →
      identifyContact t d = Except.error e) ∧
    ((∃ e, identifyContact t d = Except.error e) ↔
      ¬ ∃ resp j, t (identifyFetchRequest d) = FetchResult.success resp ∧
        resp.ok = true ∧ resp.jsonResult = Except.ok j) := by
  refine ⟨?_, ?_, ?_, ?_⟩
  · intro resp h hok
    rw [identifyContact_eq_try]
    simp [identifyTry, handleIdentifyResponse, h, hok]
  · intro resp e h hok hj
    rw [identifyContact_eq_try]
    simp [identifyTry, handleIdentifyResponse, h, hok, hj]
  · intro e h
    rw [identifyContact_eq_try]
    simp [identifyTry, handleIdentifyResponse, h]
  · rw [identifyContact_eq_try]
    cases h : t (identifyFetchRequest d) with
    | failure e =>
        simp [identifyTry, handleIdentifyResponse, h]
    | success resp =>
        cases hok : resp.ok with
        | false =>
            simp [identifyTry, handleIdentifyResponse, h, hok]
        | true =>
            cases hj : resp.jsonResult with
            | ok j =>
                simp [identifyTry, handleIdentifyResponse, h, hok, hj]
            | error e =>
                simp [identifyTry, handleIdentifyResponse, h, hok, hj]

/-- Witness for C3: a mocked status 400 yields an error carrying 400. -/
theorem identifyContact_failure_spec_witness :
    identifyContact (constTransport 400 Json.null) emptyRequest =
      Except.error (statusError 400) :=
  (identifyContact_failure_spec (constTransport 400 Json.null)
      emptyRequest).1
    { status := 400, jsonResult := Except.ok Json.null } rfl rfl

/-- Claim C5: for every status in 202-299, `identifyContact` treats the
response as success while `checkHealth` reports unhealthy. -/
theorem asymmetric_success_ranges (status : Nat) (j : Json)
    (d : IdentifyRequest) (h1 : 202 ≤ status) (h2 : status ≤ 299) :
    checkHealth (constTransport status j) = Except.ok false ∧
    identifyContact (constTransport status j) d = Except.ok j := by
  constructor
  · have h200 : status ≠ 200 := by omega
    have h201 : status ≠ 201 := by omega
    simp [checkHealth, constTransport, h200, h201]
  · have hlo : (200 : Nat) ≤ status := by omega
    rw [identifyContact_eq_try]
    simp [identifyTry, handleIdentifyResponse, constTransport, Response.ok,
      hlo, h2]

/-- Witness for C5: status 204 is success for identify yet unhealthy for
the health check. -/
theorem asymmetric_success_ranges_witness :
    checkHealth (constTransport 204 Json.null) = Except.ok false ∧
    identifyContact (constTransport 204 Json.null) emptyRequest =
      Except.ok Json.null :=
  asymmetric_success_ranges 204 Json.null emptyRequest (by decide) (by decide)

/-- Claim C6: the request issued by `identifyContact` is a POST to
`BASE_URL/identify` with a `Content-Type: application/json` header whose
body is exactly the JSON serialization of the input; a present field is
serialized even when the other is absent, and absent fields are omitted. -/
theorem identifyContact_request_format (d : IdentifyRequest) :
    (identifyFetchRequest d).method = "POST" ∧
    (identifyFetchRequest d).url = BASE_URL ++ "/identify" ∧
    ("Content-Type", "application/json") ∈ (identifyFetchRequest d).headers ∧
    (identifyFetchRequest d).body = some (jsonStringifyIdentify d) ∧
    (∀ e, d = { email := some e, phoneNumber := none } →
      jsonStringifyIdentify d =
        "\x7b" ++ (jsQuote "email" ++ ":" ++ jsQuote e) ++ "\x7d") ∧
    (∀ p, d = { email := none, phoneNumber := some p } →
      jsonStringifyIdentify d =
        "\x7b" ++ (jsQuote "phoneNumber" ++ ":" ++ jsQuote p) ++ "\x7d") ∧
    (∀ e p, d = { email := some e, phoneNumber := some p } →
      jsonStringifyIdentify d =
        "\x7b" ++ (jsQuote "email" ++ ":" ++ jsQuote e ++ "," ++
          (jsQuote "phoneNumber" ++ ":" ++ jsQuote p)) ++ "\x7d") := by
  refine ⟨rfl, rfl, List.mem_singleton.mpr rfl, rfl, ?_, ?_, ?_⟩
  · intro e he
    subst he
    simp [jsonStringifyIdentify, identifyFields, String.intercalate,
      String.intercalate.go]
  · intro p hp
    subst hp
    simp [jsonStringifyIdentify, identifyFields, String.intercalate,
      String.intercalate.go]
  · intro e p hep
    subst hep
    simp [jsonStringifyIdentify, identifyFields, String.intercalate,
      String.intercalate.go]

/-- Witness for C6: the email-only payload of the spec example serializes
with the `phoneNumber` key omitted. -/
theorem identifyContact_request_format_witness :
    jsonStringifyIdentify { email := some "a@x.com", phoneNumber := none } =
      "\x7b" ++ (jsQuote "email" ++ ":" ++ jsQuote "a@x.com") ++ "\x7d" :=
  (identifyContact_request_format
      { email := some "a@x.com", phoneNumber := none }).2.2.2.2.1
    "a@x.com" rfl

/-- Claim C7: `identifyContact` performs no client-side presence
validation: its outcome is a fixed function of the transport's response
to the serialized request, uniformly in the payload, and the payload with
both fields absent is still sent, as the empty JSON object. -/
theorem identifyContact_no_validation (t : Transport) (d : IdentifyRequest) :
    identifyContact t d =
      handleIdentifyResponse (t (identifyFetchRequest d)) ∧
    (identifyFetchRequest emptyRequest).body = some "\x7b\x7d" ∧
    identifyContact t emptyRequest =
      handleIdentifyResponse (t (identifyFetchRequest emptyRequest)) := by
  refine ⟨?_, rfl, ?_⟩
  · exact identifyContact_eq_try t d
  · exact identifyContact_eq_try t emptyRequest

/-- Witness for C7: with both fields absent the call still goes through
the uniform response handler. -/
theorem identifyContact_no_validation_witness :
    identifyContact (constTransport 200 Json.null) emptyRequest =
      handleIdentifyResponse
        (constTransport 200 Json.null (identifyFetchRequest emptyRequest)) :=
  (identifyContact_no_validation (constTransport 200 Json.null)
    emptyRequest).1

/-- Claim C8: two sequential `checkHealth()` calls against a transport
whose state the first call leaves unchanged resolve to the same boolean:
the client threads no hidden state of its own. -/
theorem checkHealth_idempotent {σ : Type} (t : StTransport σ) (s : σ)
    (hstate : (t s healthRequest).2 = s) :
    (checkHealthSt t (checkHealthSt t s).2).1 = (checkHealthSt t s).1 := by
  have h2 : (checkHealthSt t s).2 = s := by
    unfold checkHealthSt
    cases h : t s healthRequest with
    | mk r s1 =>
        rw [h] at hstate
        cases r <;> simpa using hstate
  rw [h2]

/-- Witness for C8: a stateless mocked transport gives equal results on
both calls. -/
theorem checkHealth_idempotent_witness :
    (checkHealthSt idleTransport (checkHealthSt idleTransport ()).2).1 =
      (checkHealthSt idleTransport ()).1 :=
  checkHealth_idempotent idleTransport () rfl

/-- Claim C10: the page invokes `identifyContact` only when at least one
of the two fields is a present, non-empty string: the schema refinement
blocks invalid submissions, and the `onSubmit` guard independently
returns early when both fields are falsy. -/
theorem identifyPage_guard (d : FormData) :
    (∀ req, submitFlow d = some req →
      (∃ s, d.email = some s ∧ s ≠ "") ∨
      (∃ s, d.phoneNumber = some s ∧ s ≠ "")) ∧
    (formSchemaRefine d = false → submitFlow d = none) ∧
    (truthyStr d.email = false → truthyStr d.phoneNumber = false →
      onSubmitApiCall d = none) := by
  refine ⟨?_, ?_, ?_⟩
  · intro req hreq
    have href : formSchemaRefine d = true := by
      by_contra hfalse
      rw [Bool.not_eq_true] at hfalse
      simp [submitFlow, hfalse] at hreq
    rw [formSchemaRefine, Bool.or_eq_true] at href
    cases href with
    | inl he =>
        left
        cases hd : d.email with
        | none => rw [hd] at he; exact absurd he (by simp [truthyStr])
        | some s =>
            rw [hd] at he
            refine ⟨s, rfl, ?_⟩
            simpa [truthyStr] using he
    | inr hp =>
        right
        cases hd : d.phoneNumber with
        | none => rw [hd] at hp; exact absurd hp (by simp [truthyStr])
        | some s =>
            rw [hd] at hp
            refine ⟨s, rfl, ?_⟩
            simpa [truthyStr] using hp
  · intro hfalse
    simp [submitFlow, hfalse]
  · intro he hp
    simp [onSubmitApiCall, he, hp]

/-- Witness for C10: submitting with both fields absent makes no API
call. -/
theorem identifyPage_guard_witness :
    submitFlow { email := none, phoneNumber := none } = none :=
  (identifyPage_guard { email := none, phoneNumber := none }).2.1 rfl

end Bitespeed
